import Mathlib

/-
  Verification of the pyroofit PDF composition and parameter engine.

  Shallow embedding of the relevant parts of the repository:
    * src/pyroofit/observables.py : the Variable Resolver (create_roo_variable, Var)
    * src/pyroofit/pdf.py         : the PDF base class (fix, narrow, check_convergence)
    * src/pyroofit/composites.py  : composite PDFs (AddPdf, ProdPdf, Convolution)

  Python numbers are modelled as rationals, fallible Python code as Except,
  the native variable space (RooRealVar objects owned by ROOT) as an arena
  (a list of variable states indexed by position), and Python dicts as
  insertion-ordered association lists with dict.update semantics.
-/

set_option maxHeartbeats 1000000
set_option maxRecDepth 2000

namespace Pyroofit

/-- A Python scalar appearing inside a variable specification: a string or a number. -/
inductive PyVal where
  | str (s : String)
  | num (q : ℚ)
  deriving DecidableEq, Repr

/-- State of a native RooRealVar: registered name, title, current value, bounds,
unit, post-fit error and the constant/floating flag.  A freshly constructed
variable has error 0 and is floating. -/
structure VarState where
  name : String
  title : String
  value : ℚ
  min : ℚ
  max : ℚ
  unit : String
  error : ℚ
  constant : Bool
  deriving DecidableEq, Repr

/-- Python exceptions raised by the embedded code. -/
inductive PyErr where
  | typeError
  | attributeError
  | assertionError
  deriving DecidableEq, Repr

/-- The native variable space: an arena of RooRealVar states.  A native handle is
an index into this arena, so handle equality is object identity. -/
abbrev Heap := List VarState

/-- The fields of the Python class Var (observables.py lines 33-44): an optional
name, bounds, a value and optional display strings.  Var.make mirrors the
defaulting performed by Var.do_init below. -/
structure VarDescr where
  vname : Option PyVal
  vmin : ℚ
  vmax : ℚ
  vvalue : ℚ
  vtitle : Option String
  vunit : Option String
  deriving DecidableEq, Repr

/-- Var.do_init models Var.do_init of observables.py: min defaults to 0, max to 1 and
value to the midpoint of the bounds when not given. -/
def Var.do_init (name : Option PyVal) (vmin vmax : ℚ) (value : Option ℚ)
    (title unit : Option String) : VarDescr :=
  ⟨name, vmin, vmax, (match value with | none => (vmin + vmax) / 2 | some v => v),
    title, unit⟩

/-- Inputs accepted by create_roo_variable: an already-bound native variable
(carrying its arena index), a native formula variable, a Python list of scalars,
a Python tuple of scalars, or a Var descriptor object. -/
inductive CRVInput where
  | rooRealVar (id : Nat)
  | rooFormulaVar (id : Nat)
  | pylist (xs : List PyVal)
  | pytuple (xs : List PyVal)
  | varObj (d : VarDescr)
  deriving DecidableEq, Repr

/-- The native constructor call ROOT.RooRealVar(name, title, val, lwb, upb, unit)
exactly as issued from create_roo_variable.  PyROOT converts the first two
arguments to C strings and the middle three to doubles: passing None or a
number where a string is expected, or None or a string where a double is
expected, raises TypeError.  On success a fresh variable is appended to the
arena and its index returned. -/
def mkRooRealVar (heap : Heap) (name title : Option PyVal) (val lwb upb : Option ℚ)
    (unit : String) : Except PyErr (Heap × Nat) :=
  match name, title, val, lwb, upb with
  | some (.str s), some (.str t), some v, some l, some u =>
      .ok (heap ++ [⟨s, t, v, l, u, unit, 0, false⟩], heap.length)
  | _, _, _, _, _ => .error .typeError

/-- Line 105-106 of observables.py: if name is None, name = param_name. -/
def resolveName (name param_name : Option PyVal) : Option PyVal :=
  match name with
  | none => param_name
  | some n => some n

/-- A Python value used where a double is expected: only numbers convert. -/
def pyNum? (v : PyVal) : Option ℚ :=
  match v with
  | .num q => some q
  | .str _ => none

/-- Lines 120-121 of observables.py (list branch): if title is None, title = name. -/
def listTitle (title name : Option PyVal) : Option PyVal :=
  match title with
  | none => name
  | some t => some t

/-- Lines 146-147 of observables.py (fall-through): if title is None, title = "". -/
def titleOrEmpty (title : Option PyVal) : Option PyVal :=
  match title with
  | none => some (.str "")
  | some t => some t

/-- The list branch of create_roo_variable (observables.py lines 109-122).
Length 2 destructures as (lwb, upb) with val the midpoint; lengths 3 and 4
destructure as (name, lwb, upb) resp. (name, val, lwb, upb); any other length
hits the assert False.  The midpoint arithmetic (lwb + upb) / 2 raises
TypeError when an operand is a string. -/
def createFromList (heap : Heap) (xs : List PyVal) (name title : Option PyVal)
    (unit : String) : Except PyErr (Heap × Nat) :=
  match xs with
  | [a, b] =>
    match pyNum? a, pyNum? b with
    | some l, some u =>
        mkRooRealVar heap name (listTitle title name) (some ((l + u) / 2)) (some l)
          (some u) unit
    | _, _ => .error .typeError
  | [a, b, c] =>
    match pyNum? b, pyNum? c with
    | some l, some u =>
        mkRooRealVar heap (some a) (listTitle title (some a)) (some ((l + u) / 2))
          (some l) (some u) unit
    | _, _ => .error .typeError
  | [a, b, c, d] =>
      mkRooRealVar heap (some a) (listTitle title (some a)) (pyNum? b) (pyNum? c)
        (pyNum? d) unit
  | _ => .error .assertionError

/-- create_roo_variable of observables.py (lines 76-149), with the keyword
arguments in source order (name, title, lwb, upb, val, unit, param_name).
An already-bound RooRealVar or RooFormulaVar is returned as is (lines 99-103).
A Var object immediately raises AttributeError: line 126 calls
var.get("name", name) but the class Var defines no get method (and stores its
fields under min, max, value rather than the lwb, upb, val keys the branch
reads).  A tuple matches neither the RooRealVar nor the list nor the Var
branch and falls through to line 149, calling the native constructor with the
unchanged keyword arguments. -/
def create_roo_variable (heap : Heap) (var : CRVInput) (name title : Option PyVal)
    (lwb upb val : Option ℚ) (unit : String) (param_name : Option PyVal) :
    Except PyErr (Heap × Nat) :=
  match var with
  | .rooRealVar i => .ok (heap, i)
  | .rooFormulaVar i => .ok (heap, i)
  | .pylist xs => createFromList heap xs (resolveName name param_name) title unit
  | .varObj _ => .error .attributeError
  | .pytuple _ =>
      mkRooRealVar heap (resolveName name param_name) (titleOrEmpty title) val lwb upb
        unit

/-- Python dict assignment d[k] = v on an insertion-ordered association list:
an existing key keeps its position and gets the new value, a new key is
appended. -/
def dictSet (m : List (String × α)) (k : String) (v : α) : List (String × α) :=
  if m.any (fun x => x.1 = k) then m.map (fun x => if x.1 = k then (k, v) else x)
  else m ++ [(k, v)]

/-- Python dict.update(other): assign every entry of other in order. -/
def dictUpdate (base upd : List (String × α)) : List (String × α) :=
  upd.foldl (fun acc kv => dictSet acc kv.1 kv.2) base

/-- Python d.get-style lookup in an association list. -/
def lookup? (m : List (String × α)) (k : String) : Option α :=
  (m.find? (fun x => x.1 = k)).map (fun x => x.2)

/-- State of a PDF entity as far as the parameter-editing operations of pdf.py
are concerned: the observables dict and the parameters dict, each mapping a
registered name to the state of the bound variable stored under it. -/
structure PdfState where
  observables : List (String × VarState)
  parameters : List (String × VarState)
  deriving DecidableEq, Repr

/-- PDF.fix of pdf.py (lines 364-373): for every entry of the parameters dict,
call setConstant(constant).  The observables dict is not touched. -/
def PDF.fix (s : PdfState) (constant : Bool) : PdfState :=
  { s with parameters := s.parameters.map (fun kv => (kv.1, { kv.2 with constant := constant })) }

/-- The body of the PDF.narrow loop (pdf.py lines 396-406) for one parameter:
the new upper bound is v + sigma * e unless that exceeds the current upper
bound, and the new lower bound is v - sigma * e unless that undercuts the
current lower bound. -/
def narrowVar (sigma : ℚ) (p : VarState) : VarState :=
  { p with
    max := if p.value + sigma * p.error < p.max then p.value + sigma * p.error else p.max,
    min := if p.value - sigma * p.error > p.min then p.value - sigma * p.error else p.min }

/-- PDF.narrow of pdf.py (lines 389-406): apply the narrowing step to every
entry of the parameters dict. -/
def PDF.narrow (s : PdfState) (sigma : ℚ) : PdfState :=
  { s with parameters := s.parameters.map (fun kv => (kv.1, narrowVar sigma kv.2)) }

/-- Bool test for the Python expression pat in s on character lists (used for
the substring test of check_convergence): startsWithChars pat cs holds when
pat is an initial segment of cs. -/
def startsWithChars : List Char → List Char → Bool
  | [], _ => true
  | _ :: _, [] => false
  | p :: ps, c :: cs => p == c && startsWithChars ps cs

/-- containsChars pat cs holds when pat occurs contiguously inside cs. -/
def containsChars (pat : List Char) : List Char → Bool
  | [] => startsWithChars pat []
  | c :: cs => startsWithChars pat (c :: cs) || containsChars pat cs

/-- The Python substring test pat in s on strings. -/
def strContains (s pat : String) : Bool :=
  containsChars pat.toList s.toList

/-- Environment for the convergence loop: the parameter registration order and,
for every number k of refits performed so far, each parameter's symmetric error
and the two asymmetric Minos errors.  Dependence on k models the in-place
mutation of the bound variables performed by randomize_pdf and the Fit Engine
on each refit. -/
structure FitEnv where
  paramNames : List String
  err : Nat → String → ℚ
  errHi : Nat → String → ℚ
  errLo : Nat → String → ℚ

/-- The error scanned by check_convergence: the symmetric getError, or with
assym set the smaller in magnitude of the two Minos errors (pdf.py lines
473-475). -/
def paramError (env : FitEnv) (k : Nat) (assym : Bool) (p : String) : ℚ :=
  if assym then min |env.errHi k p| |env.errLo k p| else env.err k p

/-- The skip conditions of the scan loop (pdf.py lines 468-472): a parameter in
the exceptions list is skipped, and with ignore_n set any parameter whose name
contains the substring n_ is skipped. -/
def skipParam (exceptions : Option (List String)) (ignoreN : Bool) (p : String) : Bool :=
  (match exceptions with | some ex => ex.contains p | none => false)
    || (ignoreN && strContains p "n_")

/-- The failure condition of the scan loop (pdf.py line 476): the error does
not lie strictly inside the open interval (err_lim_low, err_lim_high). -/
def failsCheck (env : FitEnv) (lo hi : ℚ) (k : Nat) (assym : Bool) (p : String) : Bool :=
  if lo < paramError env k assym p ∧ paramError env k assym p < hi then false else true

/-- The scan of check_convergence (pdf.py lines 467-481): the first parameter in
iteration order that is not skipped and fails the error check, if any. -/
def findSuspect (env : FitEnv) (lo hi : ℚ) (params : List String)
    (exceptions : Option (List String)) (assym ignoreN : Bool) (k : Nat) : Option String :=
  params.find? (fun p => !(skipParam exceptions ignoreN p) && failsCheck env lo hi k assym p)

/-- The parameter list scanned: the only argument if given, else every
registered parameter (pdf.py lines 463-465). -/
def paramsOf (env : FitEnv) (only : Option (List String)) : List String :=
  match only with
  | some o => o
  | none => env.paramNames

/-- PDF.check_convergence of pdf.py (lines 442-497).  The second component of
the result counts the refits (fit attempts) performed by the call; k counts the
refits already performed, advancing the error state by one on each retry.
If the scan passes, return True.  Otherwise, with exhausted budget return
False; with remaining budget randomize and refit, then recurse with the budget
decremented.  The recursive call at lines 491-496 passes only, exceptions and
assym through but omits ignore_n, which therefore reverts to its default True.
The source performs the scan once before branching on the budget; here the
branch on the budget comes first with the identical scan in both arms, which
agrees with the source case by case. -/
def PDF.check_convergence (env : FitEnv) (lo hi : ℚ) (n_refit : Nat)
    (only exceptions : Option (List String)) (assym ignoreN : Bool) (k : Nat) :
    Bool × Nat :=
  match n_refit with
  | 0 =>
    match findSuspect env lo hi (paramsOf env only) exceptions assym ignoreN k with
    | none => (true, 0)
    | some _ => (false, 0)
  | n + 1 =>
    match findSuspect env lo hi (paramsOf env only) exceptions assym ignoreN k with
    | none => (true, 0)
    | some _ =>
      ((PDF.check_convergence env lo hi n only exceptions assym true (k + 1)).1,
       (PDF.check_convergence env lo hi n only exceptions assym true (k + 1)).2 + 1)

/-- Total fit attempts attributed to a convergence check: the one initial fit
that produced the scanned errors plus the refits performed by the check. -/
def totalFitAttempts (res : Bool × Nat) : Nat :=
  1 + res.2

/-- A component PDF as seen by the composites: its native pdf handle (None when
construction was deferred) and its observable and parameter dicts, whose
values are arena indices of bound variables. -/
structure Component where
  roo_pdf : Option Nat
  observables : List (String × Nat)
  parameters : List (String × Nat)
  deriving DecidableEq, Repr

/-- The yield specification built by AddPdf.init_pdf for a component without an
external normalisation (composites.py line 166): the Python TUPLE
(n_<name>, 10, 0, 100000000). -/
def addPdfNormSpec (pname : String) : CRVInput :=
  .pytuple [.str ("n_" ++ pname), .num 10, .num 0, .num 100000000]

/-- The loop body of AddPdf.init_pdf (composites.py lines 164-176).  For each
component: obtain the yield (create_roo_variable on the tuple spec when no
external normalisation was registered, else the external variable), store it
under the component name in norms and under n_<name> in parameters, add the
native component pdf to the argument list (TypeError when it is None), then
merge the component observable and parameter dicts.  Any exception aborts
init_pdf. -/
def AddPdf.init_loop (heap : Heap) (ext : List (String × Nat))
    (comps : List (String × Component))
    (norms obs params : List (String × Nat)) (args : List Nat) :
    Except PyErr (Heap × List (String × Nat) × List (String × Nat) × List (String × Nat) × List Nat) :=
  match comps with
  | [] => .ok (heap, norms, obs, params, args)
  | (pname, c) :: rest =>
    match (match lookup? ext pname with
           | none =>
               create_roo_variable heap (addPdfNormSpec pname) none (some (.str ""))
                 none none none "" none
           | some i => .ok (heap, i)) with
    | .error e => .error e
    | .ok (heap1, i) =>
      match c.roo_pdf with
      | none => .error .typeError
      | some r =>
        AddPdf.init_loop heap1 ext rest (dictSet norms pname i)
          (dictUpdate obs c.observables)
          (dictUpdate (dictSet params ("n_" ++ pname) i) c.parameters)
          (args ++ [r])

/-- AddPdf.init_pdf of composites.py (lines 140-181), entered with the current
norms, observables and parameters dicts (empty at construction time; the reset
block at lines 156-159 never fires because self.norms is an AttrDict, not
None). -/
def AddPdf.init_pdf (heap : Heap) (ext : List (String × Nat))
    (comps : List (String × Component)) (norms obs params : List (String × Nat)) :
    Except PyErr (Heap × List (String × Nat) × List (String × Nat) × List (String × Nat) × List Nat) :=
  AddPdf.init_loop heap ext comps norms obs params []

/-- Resulting state of a ProdPdf after init_pdf: the aggregate dicts, the native
component pdfs collected for RooProdPdf, and the use_extended flag, which
ProdPdf.do_init sets to False right after the base constructor returns. -/
structure ProdPdfState where
  observables : List (String × Nat)
  parameters : List (String × Nat)
  components : List Nat
  use_extended : Bool
  deriving DecidableEq, Repr

/-- The loop of ProdPdf.init_pdf (composites.py lines 269-278): merge each
component dict pair into the fresh aggregate dicts; a component whose native
pdf is None is skipped (after the merge) with a warning instead of failing. -/
def ProdPdf.init_loop (comps : List (String × Component))
    (obs params : List (String × Nat)) (args : List Nat) :
    List (String × Nat) × List (String × Nat) × List Nat :=
  match comps with
  | [] => (obs, params, args)
  | (_, c) :: rest =>
    ProdPdf.init_loop rest (dictUpdate obs c.observables) (dictUpdate params c.parameters)
      (match c.roo_pdf with | none => args | some r => args ++ [r])

/-- ProdPdf construction (composites.py lines 217-282): init_pdf rebuilds the
aggregate dicts from scratch and collects the native components; afterwards
use_extended is False. -/
def ProdPdf.init_pdf (comps : List (String × Component)) : ProdPdfState :=
  ⟨(ProdPdf.init_loop comps [] [] []).1, (ProdPdf.init_loop comps [] [] []).2.1,
   (ProdPdf.init_loop comps [] [] []).2.2, false⟩

/-- The merged observables dict of a Convolution (composites.py lines 300-304):
a fresh dict updated with the observables of both components in order. -/
def Convolution.mergedObservables (pdf1 pdf2 : Component) : List (String × Nat) :=
  dictUpdate (dictUpdate [] pdf1.observables) pdf2.observables

/-- The merged parameters dict of a Convolution (composites.py lines 306-307). -/
def Convolution.mergedParameters (pdf1 pdf2 : Component) : List (String × Nat) :=
  dictUpdate (dictUpdate [] pdf1.parameters) pdf2.parameters

/-- Resulting state of a constructed Convolution: the merged dicts, the single
shared observable, and the two native component pdfs wrapped by the native
convolution object. -/
structure ConvState where
  observables : List (String × Nat)
  parameters : List (String × Nat)
  conv_observable : Nat
  conv_pdf1 : Nat
  conv_pdf2 : Nat
  deriving DecidableEq, Repr

/-- Convolution construction (composites.py lines 289-322).  After merging the
dicts, a merged observable count other than one raises at once (line 310
executes raise NotImplemented(...), and since NotImplemented is not callable
the statement raises TypeError — an error either way, before any fit).  With
exactly one observable, get_observable returns it and the native convolution
is built from the two native component pdfs; a missing native component pdf
cannot convert to the RooAbsReal reference the constructor expects. -/
def Convolution.construct (pdf1 pdf2 : Component) : Except PyErr ConvState :=
  let obs := Convolution.mergedObservables pdf1 pdf2
  let params := Convolution.mergedParameters pdf1 pdf2
  if obs.length ≠ 1 then .error .typeError
  else
    match obs, pdf1.roo_pdf, pdf2.roo_pdf with
    | o :: _, some r1, some r2 => .ok ⟨obs, params, o.2, r1, r2⟩
    | _, _, _ => .error .typeError

/-- The rational 1/100, in normalised form so that kernel evaluation works. -/
def q1_100 : ℚ := ⟨1, 100, by decide, Nat.coprime_one_left 100⟩

/-- The rational 1/2, in normalised form so that kernel evaluation works. -/
def q1_2 : ℚ := ⟨1, 2, by decide, Nat.coprime_one_left 2⟩

/-- The rational 1/4, in normalised form so that kernel evaluation works. -/
def q1_4 : ℚ := ⟨1, 4, by decide, Nat.coprime_one_left 4⟩

/-- A concrete bound parameter used to instantiate the parameter-editing
theorems: value 5, bounds [0, 10], post-fit error 1, floating. -/
def exampleVar : VarState :=
  ⟨"gauss_sig_mean", "", 5, 0, 10, "", 1, false⟩

/-- A concrete PDF state with one observable and two parameters. -/
def examplePdfState : PdfState :=
  ⟨[("mbc", ⟨"mbc", "", 5, 0, 10, "", 0, false⟩)],
   [("mean", exampleVar), ("sigma", ⟨"gauss_sig_sigma", "", 2, 0, 4, "", 1, true⟩)]⟩

/-- A pathological fit environment: a single parameter whose post-fit error is
1000 at every fit attempt, so no error limit check can ever pass. -/
def pathEnv : FitEnv :=
  ⟨["gauss_sigma"], fun _ _ => 1000, fun _ _ => 1000, fun _ _ => 1000⟩

/-- A fit environment with one well-measured shape parameter and one yield
n_sig whose error is always out of bounds. -/
def yieldEnv : FitEnv :=
  ⟨["sig_mean", "n_sig"],
   fun _ p => if p = "n_sig" then 1000 else q1_4,
   fun _ p => if p = "n_sig" then 1000 else q1_4,
   fun _ p => if p = "n_sig" then 1000 else q1_4⟩

/-- A concrete component pdf over observable x with two parameters. -/
def gaussComp : Component :=
  ⟨some 0, [("x", 10)], [("gauss_mean", 11), ("gauss_sigma", 12)]⟩

/-- A second concrete component pdf over the shared observable x. -/
def chebComp : Component :=
  ⟨some 1, [("x", 10)], [("cheb_c0", 13)]⟩

/-- A component pdf over a different observable y. -/
def argusComp : Component :=
  ⟨some 2, [("y", 14)], [("argus_c", 15)]⟩

/-- A concrete component list for a Product composition. -/
def myProdComps : List (String × Component) :=
  [("gauss", gaussComp), ("cheb", chebComp)]

/-
  Theorems.
-/

/-- C5: resolving an already-bound native variable returns the identical
instance (the same arena index), creates no new variable and modifies no
state: the arena is returned unchanged whatever the other arguments are. -/
theorem create_roo_variable_pass_through (heap : Heap) (i : Nat)
    (name title : Option PyVal) (lwb upb val : Option ℚ) (unit : String)
    (param_name : Option PyVal) :
    create_roo_variable heap (.rooRealVar i) name title lwb upb val unit param_name
      = .ok (heap, i) := rfl

/-- C3 counterexample: the 3-length sequence [5, 0, 1], whose first element is
not a string, is NOT resolved as a sorted (min, value, max) triple: the code
destructures every 3-length list as (name, lwb, upb), so 5 becomes the name,
the native constructor rejects a number as a name, and resolution raises
TypeError instead of producing any bound variable. -/
theorem create_roo_variable_three_numeric_cex :
    create_roo_variable [] (.pylist [.num 5, .num 0, .num 1]) none (some (.str ""))
        none none none "" none = .error .typeError ∧
    ∀ st : Heap × Nat,
      create_roo_variable [] (.pylist [.num 5, .num 0, .num 1]) none (some (.str ""))
        none none none "" none ≠ .ok st :=
  ⟨rfl, fun _ h => Except.noConfusion h⟩

/-- C3 amended: every 3-length sequence is destructured as (name, min, max)
with the value set to the midpoint of the bounds, regardless of the type of
the first element; no sorting is applied, and a numeric first element is
passed as the variable name, which fails the native constructor with
TypeError, rather than being reinterpreted as (min, value, max). -/
theorem create_roo_variable_three_amended (heap : Heap) (s : String) (a b n : ℚ) :
    create_roo_variable heap (.pylist [.str s, .num a, .num b]) none (some (.str ""))
        none none none "" none
      = .ok (heap ++ [⟨s, "", (a + b) / 2, a, b, "", 0, false⟩], heap.length) ∧
    create_roo_variable heap (.pylist [.num n, .num a, .num b]) none (some (.str ""))
        none none none "" none = .error .typeError :=
  ⟨rfl, rfl⟩

/-- C7: resolution of a Var descriptor object never succeeds: line 126 of
observables.py calls var.get("name", name), but the class Var defines no get
method, so every Var input raises AttributeError before any defaulting rule
can apply — contradicting the documented defaulting behaviour, whose dead code
sits at lines 128-143. -/
theorem create_roo_variable_var_descr_raises (heap : Heap) (d : VarDescr)
    (name title : Option PyVal) (lwb upb val : Option ℚ) (unit : String)
    (pn : Option PyVal) :
    create_roo_variable heap (.varObj d) name title lwb upb val unit pn
      = .error .attributeError := rfl

/-- C2: constructing a Sum with any component that has no externally supplied
normalisation raises TypeError instead of registering a yield: the yield
specification at composites.py line 166 is a tuple, which matches no branch of
create_roo_variable and falls through to the native constructor call
RooRealVar(None, "", None, None, None, "") — so no n_-prefixed yield entries
are ever created. -/
theorem addPdf_init_pdf_default_norm_raises (heap : Heap) (pname : String)
    (c : Component) (rest : List (String × Component))
    (norms obs params : List (String × Nat)) :
    AddPdf.init_pdf heap [] ((pname, c) :: rest) norms obs params
      = .error .typeError := rfl

/-- Narrowing one parameter clamps the new bounds inside the old ones. -/
theorem narrowVar_subset (sigma : ℚ) (p : VarState) :
    p.min ≤ (narrowVar sigma p).min ∧ (narrowVar sigma p).max ≤ p.max := by
  unfold narrowVar
  constructor
  · dsimp only
    split
    · exact le_of_lt (by assumption)
    · exact le_refl _
  · dsimp only
    split
    · exact le_of_lt (by assumption)
    · exact le_refl _

/-- Mapping a function over a list relates every element to its image. -/
theorem forall₂_map_self {α β : Type} (f : α → β) (R : α → β → Prop)
    (h : ∀ a, R a (f a)) : ∀ l : List α, List.Forall₂ R l (l.map f)
  | [] => List.Forall₂.nil
  | a :: t => List.Forall₂.cons (h a) (forall₂_map_self f R h t)

/-- C4: for every PDF state and every sigma at least 0, narrow(sigma) sends the
parameters dict to an entrywise-narrowed dict: each parameter keeps its
position and its new [min, max] interval is contained in the interval it had
before the call. -/
theorem narrow_shrinks_intervals (s : PdfState) (sigma : ℚ) (hsig : 0 ≤ sigma) :
    List.Forall₂
      (fun old new : String × VarState =>
        old.2.min ≤ new.2.min ∧ new.2.max ≤ old.2.max)
      s.parameters (PDF.narrow s sigma).parameters := by
  show List.Forall₂
    (fun old new : String × VarState =>
      old.2.min ≤ new.2.min ∧ new.2.max ≤ old.2.max)
    s.parameters (s.parameters.map (fun kv => (kv.1, narrowVar sigma kv.2)))
  exact forall₂_map_self (fun kv : String × VarState => (kv.1, narrowVar sigma kv.2))
    (fun old new : String × VarState => old.2.min ≤ new.2.min ∧ new.2.max ≤ old.2.max)
    (fun kv => narrowVar_subset sigma kv.2) s.parameters

/-- C4 witness: the narrowing theorem applied to a concrete PDF state with
sigma = 2. -/
theorem narrow_shrinks_intervals_witness :
    (0 : ℚ) ≤ 2 ∧
    List.Forall₂
      (fun old new : String × VarState =>
        old.2.min ≤ new.2.min ∧ new.2.max ≤ old.2.max)
      examplePdfState.parameters (PDF.narrow examplePdfState 2).parameters :=
  ⟨by norm_num, narrow_shrinks_intervals examplePdfState 2 (by norm_num)⟩

/-- C6: after fix(True), every entry of the parameters dict has its constant
flag set, and the observables dict is exactly what it was before the call. -/
theorem fix_freezes_parameters_only (s : PdfState) :
    (∀ kv ∈ (PDF.fix s true).parameters, kv.2.constant = true) ∧
    (PDF.fix s true).observables = s.observables := by
  constructor
  · intro kv hkv
    rcases List.mem_map.mp hkv with ⟨p, hp, hfp⟩
    rw [← hfp]
  · rfl

/-- C6 witness: the fix theorem applied to a concrete PDF state, instantiated
at the first parameter entry of the resulting dict. -/
theorem fix_freezes_parameters_only_witness :
    (("mean", { exampleVar with constant := true }) ∈ (PDF.fix examplePdfState true).parameters) ∧
    ({ exampleVar with constant := true } : VarState).constant = true ∧
    (PDF.fix examplePdfState true).observables = examplePdfState.observables :=
  ⟨List.Mem.head _,
   (fix_freezes_parameters_only examplePdfState).1 _ (List.Mem.head _),
   (fix_freezes_parameters_only examplePdfState).2⟩

/-- Unfolding lemma: dict.update processes its first entry first. -/
theorem dictUpdate_cons {α : Type} (base : List (String × α)) (x : String × α)
    (t : List (String × α)) :
    dictUpdate base (x :: t) = dictUpdate (dictSet base x.1 x.2) t := rfl

/-- Every entry of d[k] = v was an entry of d or is the assigned pair. -/
theorem mem_dictSet {α : Type} {m : List (String × α)} {k : String} {v : α}
    {kv : String × α} (hkv : kv ∈ dictSet m k v) : kv ∈ m ∨ kv = (k, v) := by
  unfold dictSet at hkv
  split at hkv
  · rcases List.mem_map.mp hkv with ⟨x, hx, hfx⟩
    by_cases h : x.1 = k
    · right; rw [← hfx]; simp [h]
    · left; rw [← hfx]; simp only [if_neg h]; exact hx
  · rcases List.mem_append.mp hkv with h | h
    · exact Or.inl h
    · right; simpa using h

/-- Every entry of base.update(upd) was an entry of base or is an entry of
upd. -/
theorem mem_dictUpdate {α : Type} {base upd : List (String × α)} {kv : String × α}
    (hkv : kv ∈ dictUpdate base upd) : kv ∈ base ∨ kv ∈ upd := by
  induction upd generalizing base with
  | nil => exact Or.inl hkv
  | cons x t ih =>
    rw [dictUpdate_cons] at hkv
    rcases ih hkv with h | h
    · rcases mem_dictSet h with h2 | h2
      · exact Or.inl h2
      · exact Or.inr (by simp [h2])
    · exact Or.inr (List.mem_cons_of_mem x h)

/-- d[k] = v keeps every key of d present. -/
theorem key_mem_dictSet {α : Type} (m : List (String × α)) (k : String) (v : α)
    {k2 : String} (h : ∃ w, (k2, w) ∈ m) : ∃ w, (k2, w) ∈ dictSet m k v := by
  rcases h with ⟨w, hw⟩
  unfold dictSet
  split
  · by_cases hk : k2 = k
    · subst hk
      exact ⟨v, List.mem_map.mpr ⟨(k2, w), hw, by simp⟩⟩
    · exact ⟨w, List.mem_map.mpr ⟨(k2, w), hw, by simp [hk]⟩⟩
  · exact ⟨w, List.mem_append_left _ hw⟩

/-- After d[k] = v the key k is present. -/
theorem key_self_mem_dictSet {α : Type} (m : List (String × α)) (k : String) (v : α) :
    ∃ w, (k, w) ∈ dictSet m k v := by
  unfold dictSet
  split
  · next hany =>
      rcases List.any_eq_true.mp hany with ⟨x, hx, hxk⟩
      exact ⟨v, List.mem_map.mpr ⟨x, hx, by simp [of_decide_eq_true hxk]⟩⟩
  · exact ⟨v, List.mem_append_right _ (by simp)⟩

/-- base.update(upd) keeps every key of base present. -/
theorem key_mem_dictUpdate_left {α : Type} {base upd : List (String × α)} {k : String}
    (h : ∃ w, (k, w) ∈ base) : ∃ w, (k, w) ∈ dictUpdate base upd := by
  induction upd generalizing base with
  | nil => exact h
  | cons x t ih =>
    rw [dictUpdate_cons]
    exact ih (key_mem_dictSet base x.1 x.2 h)

/-- base.update(upd) makes every key of upd present. -/
theorem key_mem_dictUpdate_right {α : Type} {base upd : List (String × α)} {k : String}
    (h : ∃ w, (k, w) ∈ upd) : ∃ w, (k, w) ∈ dictUpdate base upd := by
  induction upd generalizing base with
  | nil => rcases h with ⟨w, hw⟩; cases hw
  | cons x t ih =>
    rw [dictUpdate_cons]
    rcases h with ⟨w, hw⟩
    rcases List.mem_cons.mp hw with h1 | h1
    · have hk : k = x.1 := congrArg Prod.fst h1
      subst hk
      exact key_mem_dictUpdate_left (key_self_mem_dictSet base x.1 x.2)
    · exact ih ⟨w, h1⟩

/-- Every entry accumulated by the ProdPdf loop into the parameters dict comes
from the initial dict or from some component. -/
theorem prodPdf_loop_entries (comps : List (String × Component))
    (obs params : List (String × Nat)) (args : List Nat) :
    ∀ kv ∈ (ProdPdf.init_loop comps obs params args).2.1,
      kv ∈ params ∨ ∃ nc ∈ comps, kv ∈ nc.2.parameters := by
  induction comps generalizing obs params args with
  | nil => intro kv h; exact Or.inl h
  | cons c rest ih =>
    intro kv h
    rcases ih _ _ _ kv h with h1 | h1
    · rcases mem_dictUpdate h1 with h2 | h2
      · exact Or.inl h2
      · exact Or.inr ⟨c, List.mem_cons_self c rest, h2⟩
    · rcases h1 with ⟨nc, hnc, hkv⟩
      exact Or.inr ⟨nc, List.mem_cons_of_mem c hnc, hkv⟩

/-- A key present in the accumulator stays present through the ProdPdf loop. -/
theorem prodPdf_loop_key_preserved (comps : List (String × Component))
    (obs params : List (String × Nat)) (args : List Nat) {k : String}
    (h : ∃ w, (k, w) ∈ params) :
    ∃ w, (k, w) ∈ (ProdPdf.init_loop comps obs params args).2.1 := by
  induction comps generalizing obs params args with
  | nil => exact h
  | cons c rest ih => exact ih _ _ _ (key_mem_dictUpdate_left h)

/-- Every key of every component parameters dict ends up in the aggregate
parameters dict built by the ProdPdf loop. -/
theorem prodPdf_loop_keys (comps : List (String × Component))
    (obs params : List (String × Nat)) (args : List Nat) :
    ∀ nc ∈ comps, ∀ kv ∈ nc.2.parameters,
      ∃ w, (kv.1, w) ∈ (ProdPdf.init_loop comps obs params args).2.1 := by
  induction comps generalizing obs params args with
  | nil => intro nc h; cases h
  | cons c rest ih =>
    intro nc hnc kv hkv
    rcases List.mem_cons.mp hnc with h1 | h1
    · subst h1
      exact prodPdf_loop_key_preserved rest _ _ _
        (key_mem_dictUpdate_right ⟨kv.2, by simpa using hkv⟩)
    · exact ih _ _ _ nc h1 kv hkv

/-- C9: a Product composition creates no yield variables: every entry of the
aggregate parameters dict is an entry of some component parameters dict (so in
particular no fresh n_-prefixed entry is added), every component parameter key
appears in the aggregate dict, and use_extended is false after construction. -/
theorem prodPdf_union_no_yields (comps : List (String × Component)) :
    (∀ kv ∈ (ProdPdf.init_pdf comps).parameters, ∃ nc ∈ comps, kv ∈ nc.2.parameters) ∧
    (∀ nc ∈ comps, ∀ kv ∈ nc.2.parameters,
      ∃ w, (kv.1, w) ∈ (ProdPdf.init_pdf comps).parameters) ∧
    (ProdPdf.init_pdf comps).use_extended = false := by
  refine ⟨?_, ?_, rfl⟩
  · intro kv h
    rcases prodPdf_loop_entries comps [] [] [] kv h with h1 | h1
    · cases h1
    · exact h1
  · intro nc hnc kv hkv
    exact prodPdf_loop_keys comps [] [] [] nc hnc kv hkv

/-- C9 witness: the Product theorem applied to a concrete two-component
composition, instantiated at a concrete aggregate entry. -/
theorem prodPdf_union_no_yields_witness :
    (∃ nc ∈ myProdComps, ("gauss_mean", 11) ∈ nc.2.parameters) ∧
    (∃ w, ("cheb_c0", w) ∈ (ProdPdf.init_pdf myProdComps).parameters) ∧
    (ProdPdf.init_pdf myProdComps).use_extended = false :=
  ⟨(prodPdf_union_no_yields myProdComps).1 ("gauss_mean", 11) (by decide),
   (prodPdf_union_no_yields myProdComps).2.1 ("cheb", chebComp) (by decide)
     ("cheb_c0", 13) (by decide),
   (prodPdf_union_no_yields myProdComps).2.2⟩

/-- C8: for two component PDFs with constructed native pdfs, Convolution
construction succeeds exactly when the merged observables dict has one entry;
with any other entry count it raises an error (TypeError, from the
raise NotImplemented statement) at construction time, before any fit. -/
theorem convolution_one_dim_only (p1 p2 : Component) (r1 r2 : Nat)
    (h1 : p1.roo_pdf = some r1) (h2 : p2.roo_pdf = some r2) :
    ((∃ st, Convolution.construct p1 p2 = .ok st) ↔
      (Convolution.mergedObservables p1 p2).length = 1) ∧
    ((Convolution.mergedObservables p1 p2).length ≠ 1 →
      Convolution.construct p1 p2 = .error .typeError) := by
  constructor
  · constructor
    · rintro ⟨st, hst⟩
      unfold Convolution.construct at hst
      by_contra hlen
      rw [if_pos hlen] at hst
      cases hst
    · intro hlen
      unfold Convolution.construct
      rw [if_neg (fun h => h hlen), h1, h2]
      rcases hm : Convolution.mergedObservables p1 p2 with _ | ⟨o, t⟩
      · rw [hm] at hlen; cases hlen
      · exact ⟨_, rfl⟩
  · intro hlen
    unfold Convolution.construct
    rw [if_pos hlen]

/-- C8 witness: two concrete components sharing the single observable x
convolve successfully, and the theorem ties that success to the merged
observable count being one. -/
theorem convolution_one_dim_only_witness :
    gaussComp.roo_pdf = some 0 ∧ chebComp.roo_pdf = some 1 ∧
    (∃ st, Convolution.construct gaussComp chebComp = .ok st) :=
  ⟨rfl, rfl,
   ((convolution_one_dim_only gaussComp chebComp 0 1 rfl rfl).1).mpr (by decide)⟩

/-- C1: check_convergence always terminates (it is a total function of the
budget) returning a boolean together with its refit count; counting the one
initial fit that produced the scanned errors, it performs at most n_refit + 1
fit attempts; and on a fit environment in which every scan finds an offending
parameter (whatever the ignore_n flag of the scan), it returns false after
exactly n_refit refits. -/
theorem check_convergence_attempt_bound (env : FitEnv) (lo hi : ℚ) (n : Nat)
    (only exceptions : Option (List String)) (assym ignoreN : Bool) (k : Nat) :
    totalFitAttempts (PDF.check_convergence env lo hi n only exceptions assym ignoreN k)
      ≤ n + 1 ∧
    ((∀ j b, (findSuspect env lo hi (paramsOf env only) exceptions assym b j).isSome = true) →
      PDF.check_convergence env lo hi n only exceptions assym ignoreN k = (false, n)) := by
  induction n generalizing ignoreN k with
  | zero =>
    constructor
    · unfold PDF.check_convergence
      cases hfs : findSuspect env lo hi (paramsOf env only) exceptions assym ignoreN k
      · simp [totalFitAttempts]
      · simp [totalFitAttempts]
    · intro hall
      unfold PDF.check_convergence
      cases hfs : findSuspect env lo hi (paramsOf env only) exceptions assym ignoreN k
      · exfalso
        have hs := hall k ignoreN
        rw [hfs] at hs
        cases hs
      · rfl
  | succ m ih =>
    constructor
    · unfold PDF.check_convergence
      cases hfs : findSuspect env lo hi (paramsOf env only) exceptions assym ignoreN k
      · simp [totalFitAttempts]
      · have hb := (ih true (k + 1)).1
        unfold totalFitAttempts at hb
        show 1 + ((PDF.check_convergence env lo hi m only exceptions assym true (k + 1)).2 + 1)
          ≤ m + 1 + 1
        omega
    · intro hall
      unfold PDF.check_convergence
      cases hfs : findSuspect env lo hi (paramsOf env only) exceptions assym ignoreN k
      · exfalso
        have hs := hall k ignoreN
        rw [hfs] at hs
        cases hs
      · have h2 := (ih true (k + 1)).2 hall
        simp [h2]

/-- C1 witness: on the pathological environment whose single parameter always
has error 1000, check_convergence with limits (1/100, 1/2) and budget 3
returns false having performed 3 refits, i.e. 4 total fit attempts counting
the initial fit. -/
theorem check_convergence_attempt_bound_witness :
    (∀ j b, (findSuspect pathEnv q1_100 q1_2 (paramsOf pathEnv none) none false b j).isSome = true) ∧
    PDF.check_convergence pathEnv q1_100 q1_2 3 none none false true 0 = (false, 3) ∧
    totalFitAttempts (false, 3) = 4 := by
  have hall : ∀ j b,
      (findSuspect pathEnv q1_100 q1_2 (paramsOf pathEnv none) none false b j).isSome = true := by
    intro j b
    have h1 : paramError pathEnv j false "gauss_sigma" = 1000 := rfl
    have h2 : failsCheck pathEnv q1_100 q1_2 j false "gauss_sigma" = true := by
      unfold failsCheck
      rw [h1]
      decide
    have h3 : skipParam none b "gauss_sigma" = false := by cases b <;> rfl
    unfold findSuspect paramsOf
    simp [List.find?, h2, h3]
  exact ⟨hall,
    (check_convergence_attempt_bound pathEnv q1_100 q1_2 3 none none false true 0).2 hall,
    rfl⟩

/-- C10: when the first scan (with ignore_n = False as requested by the
caller) finds an offending parameter and budget remains, the retry re-invokes
the check with ignore_n reverted to its default True (the recursive call omits
the argument); consequently every scan after the first skips any parameter
whose name contains the substring n_ — it can never be the reported suspect —
even though the caller asked for yields to be included. -/
theorem check_convergence_reverts_ignore_n (env : FitEnv) (lo hi : ℚ) (n : Nat)
    (only exceptions : Option (List String)) (assym : Bool) (k : Nat)
    (hfail : (findSuspect env lo hi (paramsOf env only) exceptions assym false k).isSome = true) :
    (PDF.check_convergence env lo hi (n + 1) only exceptions assym false k =
      ((PDF.check_convergence env lo hi n only exceptions assym true (k + 1)).1,
       (PDF.check_convergence env lo hi n only exceptions assym true (k + 1)).2 + 1)) ∧
    (∀ (j : Nat) (p : String), strContains p "n_" = true →
      findSuspect env lo hi (paramsOf env only) exceptions assym true j ≠ some p) := by
  constructor
  · have hunf : PDF.check_convergence env lo hi (n + 1) only exceptions assym false k
        = match findSuspect env lo hi (paramsOf env only) exceptions assym false k with
          | none => (true, 0)
          | some _ =>
            ((PDF.check_convergence env lo hi n only exceptions assym true (k + 1)).1,
             (PDF.check_convergence env lo hi n only exceptions assym true (k + 1)).2 + 1) := rfl
    cases hfs : findSuspect env lo hi (paramsOf env only) exceptions assym false k
    · rw [hfs] at hfail
      cases hfail
    · rw [hunf, hfs]
  · intro j p hp hsome
    have hpred := List.find?_some hsome
    have hskip : skipParam exceptions true p = true := by
      unfold skipParam
      rw [hp]
      simp
    rw [hskip] at hpred
    simp at hpred

/-- C10 witness: in an environment where the yield n_sig is the only offending
parameter, a call with ignore_n = False and budget 3 fails its first scan and
then recurses with ignore_n = True; under the reverted flag n_sig can no
longer be reported as suspect. -/
theorem check_convergence_reverts_ignore_n_witness :
    ((findSuspect yieldEnv q1_100 q1_2 (paramsOf yieldEnv none) none false false 0).isSome = true) ∧
    (PDF.check_convergence yieldEnv q1_100 q1_2 3 none none false false 0 =
      ((PDF.check_convergence yieldEnv q1_100 q1_2 2 none none false true 1).1,
       (PDF.check_convergence yieldEnv q1_100 q1_2 2 none none false true 1).2 + 1)) ∧
    (findSuspect yieldEnv q1_100 q1_2 (paramsOf yieldEnv none) none false true 5 ≠ some "n_sig") := by
  have hfail : (findSuspect yieldEnv q1_100 q1_2 (paramsOf yieldEnv none) none false false 0).isSome = true := rfl
  exact ⟨hfail,
    (check_convergence_reverts_ignore_n yieldEnv q1_100 q1_2 2 none none false 0 hfail).1,
    (check_convergence_reverts_ignore_n yieldEnv q1_100 q1_2 2 none none false 0 hfail).2 5 "n_sig" rfl⟩

end Pyroofit
